import Mathlib

/-!
# Scan Reconciliation Pipeline — shallow embedding

Embedding of the scan-to-record pipeline of the book-tracking app
(`src/App.jsx` and its earlier revisions).  The app's latest revision is
embedded as `handleScanSuccess` / `addBookToDB`; the earlier revision
without the duplicate check (the one whose `addBookToDB` takes no
category and performs no store query) is embedded as
`handleScanSuccessV1` / `addBookToDBV1`.

External collaborators (the two bibliographic providers, the record
store, the timer queue) are modelled by an explicit environment `Env`
holding their responses, and by a trace of observable `Event`s emitted
by a run: provider fetches, duplicate queries, insert calls, message
updates, alerts, beeps and timer arms.  The `setTimeout` re-arm callback
is modelled by `timerFire`.
-/

namespace BookApp

/-- JS truthiness of a possibly-undefined string: `undefined`, `null`
and `""` are falsy, every other string truthy. -/
def strTruthy : Option String → Bool
  | some s => s ≠ ""
  | none => false

/-- JS template interpolation of a possibly-undefined string:
an absent value prints as `"undefined"`. -/
def jsShow : Option String → String
  | some s => s
  | none => "undefined"

/-- JS `x || d` on a possibly-undefined string (empty string is falsy). -/
def jsOrStr (o : Option String) (d : String) : String :=
  match o with
  | some s => if s = "" then d else s
  | none => d

/-- JS `s.startsWith(p)` (also the semantics of `s.match(/^p/)` for a
literal pattern `p`). -/
def strStartsWith (s p : String) : Bool :=
  p.data.isPrefixOf s.data

/-- Replace the first occurrence of `pat` in a character list by `rep`;
if `pat` does not occur, the list is unchanged.  This is the semantics
of JS `String.prototype.replace` with a string pattern. -/
def replaceFirstAux (pat rep : List Char) : List Char → List Char
  | [] => []
  | c :: cs =>
      if pat.isPrefixOf (c :: cs) then rep ++ (c :: cs).drop pat.length
      else c :: replaceFirstAux pat rep cs

/-- JS `s.replace(pat, rep)` with a string pattern: first occurrence
only. -/
def jsReplaceFirst (s pat rep : String) : String :=
  ⟨replaceFirstAux pat.data rep.data s.data⟩

/-- `imageLinks` object of a secondary-provider (Google Books) volume. -/
structure ImageLinks where
  thumbnail : Option String
deriving DecidableEq

/-- `volumeInfo` object of a secondary-provider (Google Books) volume. -/
structure VolumeInfo where
  title : Option String
  authors : Option (List String)
  publisher : Option String
  imageLinks : Option ImageLinks
deriving DecidableEq

/-- A bibliographic data object handed to `addBookToDB`: either a
primary-provider (openBD) `summary` object, or the object built from a
secondary-provider volume.  All fields may be absent (JS `undefined`). -/
structure BookData where
  title : Option String
  author : Option String
  publisher : Option String
  cover : Option String
  isbn : Option String
deriving DecidableEq

/-- `addBookToDB`'s duck-typed argument: a plain title string (manual
entry) or a bibliographic object (scan path). -/
inductive BookInput where
  | str (title : String)
  | obj (d : BookData)
deriving DecidableEq

/-- The row handed to the store's insert operation. -/
structure InsertData where
  status : String
  category : Option String
  title : Option String
  author : Option String
  publisher : Option String
  cover_url : Option String
  isbn : Option String
deriving DecidableEq

/-- A row of the `books` table, as seen by the duplicate query
(`select('id').eq('isbn', …)` only inspects the `isbn` column). -/
structure StoredRow where
  isbn : Option String
deriving DecidableEq

/-- Environment of one pipeline run: the two providers' responses, the
store's contents and the store's answer to the insert call.
`openBD = .ok none` models an openBD reply without a `summary`
(`!(dataOpenBD[0] && dataOpenBD[0].summary)`); `.error m` models a
thrown fetch/parse failure caught by the surrounding `try`. -/
structure Env where
  selectedCategory : String
  openBD : Except String (Option BookData)
  google : Except String (List VolumeInfo)
  storeBooks : List StoredRow
  insertError : Option String

/-- The component state touched by the pipeline: the scan lock
(`lastScannedIsbnRef.current`) and the scan message. -/
structure ScanState where
  lastScannedIsbn : Option String
  scanMessage : String
deriving DecidableEq

/-- Observable actions of one run. -/
inductive Event where
  | beep
  | fetchOpenBD (isbn : String)
  | fetchGoogle (isbn : String)
  | queryDuplicates (isbn : String)
  | insertRow (row : InsertData)
  | fetchBooksCall
  | setMessage (msg : String)
  | alertMsg (msg : String)
  | armTimer (ms : Nat)
deriving DecidableEq

/-- The `setTimeout` callback scheduled by `resetScanLock`: clears the
scan message and releases the scan lock. -/
def timerFire (_ : ScanState) : ScanState :=
  { lastScannedIsbn := none, scanMessage := "" }

/-- Whether an event arms a re-arm timer. -/
def isArm : Event → Bool
  | .armTimer _ => true
  | _ => false

/-- Number of re-arm timers armed in a trace. -/
def timerArms (tr : List Event) : Nat :=
  tr.countP fun e => isArm e

/-- The gate's shape check, `isbn.match(/^(978|979)/)`: the raw string
begins with `978` or `979`. -/
def isbnPolicy (s : String) : Bool :=
  strStartsWith s "978" || strStartsWith s "979"

/-- The spec's stated validation policy, written from the spec's words
for comparison with `isbnPolicy`: a 13-digit numeric string beginning
with `978` or `979`. -/
def specValidIsbn13 (s : String) : Bool :=
  s.data.length == 13 && s.data.all Char.isDigit
    && (strStartsWith s "978" || strStartsWith s "979")

/-- Insert payload built by the latest revision's `addBookToDB`:
`{ status: '未読', category: selectedCategory || null }` spread with
either the manual title or the scanned object's fields. -/
def insertDataOf (selectedCategory : String) : BookInput → InsertData
  | .str t =>
      { status := "未読"
        category := if selectedCategory = "" then none else some selectedCategory
        title := some t, author := none, publisher := none
        cover_url := none, isbn := none }
  | .obj d =>
      { status := "未読"
        category := if selectedCategory = "" then none else some selectedCategory
        title := d.title, author := d.author, publisher := d.publisher
        cover_url := d.cover, isbn := d.isbn }

/-- Insert payload built by the earlier revision's `addBookToDB`
(no category column, same `status: '未読'` default). -/
def insertDataOfV1 : BookInput → InsertData
  | .str t =>
      { status := "未読", category := none
        title := some t, author := none, publisher := none
        cover_url := none, isbn := none }
  | .obj d =>
      { status := "未読", category := none
        title := d.title, author := d.author, publisher := d.publisher
        cover_url := d.cover, isbn := d.isbn }

/-- The duplicate warning message, `⚠️ 登録済み: ${insertData.title}`. -/
def dupMsg (row : InsertData) : String :=
  "⚠️ 登録済み: " ++ jsShow row.title

/-- The success message set by `showSuccessMessage`,
`✅ 追加: ${title}`. -/
def successMsg (t : Option String) : String :=
  "✅ 追加: " ++ jsShow t

/-- The condition under which the latest `addBookToDB` short-circuits:
`insertData.isbn` is truthy and the store holds a row with that isbn. -/
def duplicateHit (store : List StoredRow) (row : InsertData) : Bool :=
  strTruthy row.isbn && store.any fun r => decide (r.isbn = row.isbn)

/-- The insert call shared by both revisions:
`supabase.from('books').insert([insertData])`, alerting
`保存エラー: …` on failure and re-fetching the list on success. -/
def insertStep (env : Env) (st : ScanState) (row : InsertData) :
    ScanState × List Event :=
  match env.insertError with
  | some msg => (st, [Event.insertRow row, Event.alertMsg ("保存エラー: " ++ msg)])
  | none => (st, [Event.insertRow row, Event.fetchBooksCall])

/-- Latest revision's `addBookToDB`: build the payload, query the store
for an existing row with the same isbn when the payload's isbn is
truthy, short-circuit with the duplicate warning (beep and re-arm timer)
if one exists, otherwise insert. -/
def addBookToDB (env : Env) (st : ScanState) (bookData : BookInput) :
    ScanState × List Event :=
  let row := insertDataOf env.selectedCategory bookData
  if strTruthy row.isbn then
    if env.storeBooks.any (fun r => decide (r.isbn = row.isbn)) then
      ({ st with scanMessage := dupMsg row },
       [Event.queryDuplicates (jsShow row.isbn),
        Event.setMessage (dupMsg row), Event.beep, Event.armTimer 3000])
    else
      let r := insertStep env st row
      (r.1, Event.queryDuplicates (jsShow row.isbn) :: r.2)
  else
    insertStep env st row

/-- Earlier revision's `addBookToDB`: no duplicate check, insert
directly. -/
def addBookToDBV1 (env : Env) (st : ScanState) (bookData : BookInput) :
    ScanState × List Event :=
  insertStep env st (insertDataOfV1 bookData)

/-- `info.imageLinks?.thumbnail`. -/
def chainThumb (info : VolumeInfo) : Option String :=
  info.imageLinks.bind fun il => il.thumbnail

/-- The object built from the first secondary-provider volume in the
latest revision: `||` sentinels for title and publisher, a comma-joined
author list (any present array — even empty — is truthy), cover from
`(info.imageLinks?.thumbnail || '').replace('http://', 'https://')`,
and the scanned isbn. -/
def googleBookData (isbn : String) (info : VolumeInfo) : BookData :=
  { title := some (jsOrStr info.title "タイトル不明")
    author := some (match info.authors with
      | some l => String.intercalate ", " l
      | none => "著者不明")
    publisher := some (jsOrStr info.publisher "出版社不明")
    cover := some (jsReplaceFirst (jsOrStr (chainThumb info) "") "http://" "https://")
    isbn := some isbn }

/-- Cover computation of the earlier revision:
`(info.imageLinks && info.imageLinks.thumbnail) ? …replace(…) : ''`. -/
def coverV1 (info : VolumeInfo) : String :=
  match info.imageLinks with
  | some il =>
      match il.thumbnail with
      | some t => if t = "" then "" else jsReplaceFirst t "http://" "https://"
      | none => ""
  | none => ""

/-- The object built from the first secondary-provider volume in the
earlier revision (same sentinels, ternary cover). -/
def googleBookDataV1 (isbn : String) (info : VolumeInfo) : BookData :=
  { title := some (jsOrStr info.title "タイトル不明")
    author := some (match info.authors with
      | some l => String.intercalate ", " l
      | none => "著者不明")
    publisher := some (jsOrStr info.publisher "出版社不明")
    cover := some (coverV1 info)
    isbn := some isbn }

/-- Latest revision's `handleScanSuccess`: the gate (lock check, then
shape check, then lock set and beep), the primary lookup, the
duplicate-checking insert, the secondary fallback, and the terminal
message/timer in every branch.  `showSuccessMessage` is called after
`addBookToDB` returns in both provider-hit branches. -/
def handleScanSuccess (env : Env) (st : ScanState) (isbn : String) :
    ScanState × List Event :=
  if st.lastScannedIsbn = some isbn then (st, [])
  else if isbnPolicy isbn then
    let stL : ScanState := { st with lastScannedIsbn := some isbn }
    match env.openBD with
    | .error msg =>
        (stL, [Event.beep, Event.fetchOpenBD isbn,
               Event.alertMsg ("エラー: " ++ msg), Event.armTimer 3000])
    | .ok (some summary) =>
        let r := addBookToDB env stL (.obj summary)
        ({ r.1 with scanMessage := successMsg summary.title },
         [Event.beep, Event.fetchOpenBD isbn] ++ r.2
           ++ [Event.setMessage (successMsg summary.title), Event.armTimer 3000])
    | .ok none =>
        match env.google with
        | .error msg =>
            (stL, [Event.beep, Event.fetchOpenBD isbn, Event.fetchGoogle isbn,
                   Event.alertMsg ("エラー: " ++ msg), Event.armTimer 3000])
        | .ok [] =>
            ({ stL with scanMessage := "⚠️ 情報なし" },
             [Event.beep, Event.fetchOpenBD isbn, Event.fetchGoogle isbn,
              Event.setMessage "⚠️ 情報なし", Event.armTimer 3000])
        | .ok (info :: _) =>
            let g := googleBookData isbn info
            let r := addBookToDB env stL (.obj g)
            ({ r.1 with scanMessage := successMsg g.title },
             [Event.beep, Event.fetchOpenBD isbn, Event.fetchGoogle isbn] ++ r.2
               ++ [Event.setMessage (successMsg g.title), Event.armTimer 3000])
  else (st, [])

/-- Earlier revision's `handleScanSuccess`: same gate, primary lookup
and fallback, but `addBookToDBV1` (no duplicate check) and the earlier
not-found message. -/
def handleScanSuccessV1 (env : Env) (st : ScanState) (isbn : String) :
    ScanState × List Event :=
  if st.lastScannedIsbn = some isbn then (st, [])
  else if isbnPolicy isbn then
    let stL : ScanState := { st with lastScannedIsbn := some isbn }
    match env.openBD with
    | .error msg =>
        (stL, [Event.beep, Event.fetchOpenBD isbn,
               Event.alertMsg ("エラー: " ++ msg), Event.armTimer 3000])
    | .ok (some summary) =>
        let r := addBookToDBV1 env stL (.obj summary)
        ({ r.1 with scanMessage := successMsg summary.title },
         [Event.beep, Event.fetchOpenBD isbn] ++ r.2
           ++ [Event.setMessage (successMsg summary.title), Event.armTimer 3000])
    | .ok none =>
        match env.google with
        | .error msg =>
            (stL, [Event.beep, Event.fetchOpenBD isbn, Event.fetchGoogle isbn,
                   Event.alertMsg ("エラー: " ++ msg), Event.armTimer 3000])
        | .ok [] =>
            ({ stL with scanMessage := "⚠️ 情報が見つかりませんでした" },
             [Event.beep, Event.fetchOpenBD isbn, Event.fetchGoogle isbn,
              Event.setMessage "⚠️ 情報が見つかりませんでした", Event.armTimer 3000])
        | .ok (info :: _) =>
            let g := googleBookDataV1 isbn info
            let r := addBookToDBV1 env stL (.obj g)
            ({ r.1 with scanMessage := successMsg g.title },
             [Event.beep, Event.fetchOpenBD isbn, Event.fetchGoogle isbn] ++ r.2
               ++ [Event.setMessage (successMsg g.title), Event.armTimer 3000])
  else (st, [])

/-- Fresh component state: no lock, no message. -/
def st0 : ScanState := { lastScannedIsbn := none, scanMessage := "" }

/-! ### Concrete test fixtures -/

/-- A primary-provider summary carrying only title and author — the
shape the spec's end-to-end test uses
(`{summary: {title: "T", author: "A"}}`, no `isbn` field). -/
def summaryNoIsbn : BookData :=
  { title := some "T", author := some "A", publisher := none, cover := none, isbn := none }

/-- A primary-provider summary that echoes the scanned isbn. -/
def summaryT : BookData :=
  { title := some "T", author := none, publisher := none, cover := none,
    isbn := some "9784000000000" }

/-- A primary-provider summary with an insecure cover URL. -/
def summaryHttp : BookData :=
  { title := some "T", author := none, publisher := none,
    cover := some "http://covers.example/x.jpg", isbn := some "9784061530194" }

/-- A secondary-provider volume carrying only a title. -/
def infoT : VolumeInfo :=
  { title := some "T", authors := none, publisher := none, imageLinks := none }

/-- A secondary-provider volume with no optional field at all. -/
def infoEmpty : VolumeInfo :=
  { title := none, authors := none, publisher := none, imageLinks := none }

/-- A secondary-provider volume with an insecure thumbnail. -/
def infoHttp : VolumeInfo :=
  { title := some "G", authors := none, publisher := none,
    imageLinks := some { thumbnail := some "http://a" } }

/-- Both providers miss, store empty. -/
def envNF : Env :=
  { selectedCategory := "", openBD := .ok none, google := .ok [],
    storeBooks := [], insertError := none }

/-- Primary hit whose summary lacks an isbn, while the store already
holds the scanned isbn. -/
def envC1 : Env :=
  { selectedCategory := ""
    openBD := .ok (some { title := some "T", author := none, publisher := none,
                          cover := none, isbn := none })
    google := .ok [], storeBooks := [{ isbn := some "9784000000000" }]
    insertError := none }

/-- Primary miss, secondary hit, store already holds the scanned isbn. -/
def envDup : Env :=
  { selectedCategory := "", openBD := .ok none, google := .ok [infoT]
    storeBooks := [{ isbn := some "9784000000000" }], insertError := none }

/-- Primary hit echoing the scanned isbn, already in the store. -/
def envDupBD : Env :=
  { selectedCategory := "", openBD := .ok (some summaryT), google := .ok []
    storeBooks := [{ isbn := some "9784000000000" }], insertError := none }

/-- Primary hit with the spec's `{title: "T", author: "A"}` summary. -/
def envC5 : Env :=
  { selectedCategory := "", openBD := .ok (some summaryNoIsbn), google := .ok []
    storeBooks := [], insertError := none }

/-- Primary hit with an insecure cover URL, store empty. -/
def envC8 : Env :=
  { selectedCategory := "", openBD := .ok (some summaryHttp), google := .ok []
    storeBooks := [], insertError := none }

/-- Primary provider fetch fails, exercising the catch path. -/
def envErr : Env :=
  { selectedCategory := "", openBD := .error "boom", google := .ok [],
    storeBooks := [], insertError := none }

/-- The row the earlier revision inserts for `summaryNoIsbn`. -/
def rowC5 : InsertData :=
  { status := "未読", category := none, title := some "T", author := some "A",
    publisher := none, cover_url := none, isbn := none }

/-- The row the latest revision inserts for `envC1`'s summary. -/
def rowC1 : InsertData :=
  { status := "未読", category := none, title := some "T", author := none,
    publisher := none, cover_url := none, isbn := none }

/-- The row the latest revision inserts for `summaryHttp`. -/
def rowC8 : InsertData :=
  { status := "未読", category := none, title := some "T", author := none,
    publisher := none, cover_url := some "http://covers.example/x.jpg",
    isbn := some "9784061530194" }

/-! ### Helper lemmas -/

/-- `addBookToDB` never queries a provider, and every insert call it
makes carries exactly the payload built from its argument. -/
lemma addBookToDB_trace (env : Env) (st : ScanState) (b : BookInput) :
    (∀ i, Event.fetchGoogle i ∉ (addBookToDB env st b).2) ∧
    (∀ i, Event.fetchOpenBD i ∉ (addBookToDB env st b).2) ∧
    (∀ row, Event.insertRow row ∈ (addBookToDB env st b).2 →
      row = insertDataOf env.selectedCategory b) := by
  unfold addBookToDB insertStep
  by_cases h1 : strTruthy (insertDataOf env.selectedCategory b).isbn = true <;>
  by_cases h2 : env.storeBooks.any
      (fun r => decide (r.isbn = (insertDataOf env.selectedCategory b).isbn)) = true <;>
  cases env.insertError <;>
  simp [h1, h2]

/-- `addBookToDB` never touches the scan lock. -/
lemma addBookToDB_lock (env : Env) (st : ScanState) (b : BookInput) :
    (addBookToDB env st b).1.lastScannedIsbn = st.lastScannedIsbn := by
  unfold addBookToDB insertStep
  by_cases h1 : strTruthy (insertDataOf env.selectedCategory b).isbn = true <;>
  by_cases h2 : env.storeBooks.any
      (fun r => decide (r.isbn = (insertDataOf env.selectedCategory b).isbn)) = true <;>
  cases env.insertError <;>
  simp [h1, h2]

/-- A locked scan of the same string is a silent no-op. -/
lemma locked_noop (env : Env) (st : ScanState) (isbn : String)
    (h : st.lastScannedIsbn = some isbn) :
    handleScanSuccess env st isbn = (st, []) := by
  unfold handleScanSuccess
  simp [h]

/-- An admitted scan beeps. -/
lemma admitted_beep (env : Env) (st : ScanState) (isbn : String)
    (hlock : st.lastScannedIsbn ≠ some isbn) (hpol : isbnPolicy isbn = true) :
    Event.beep ∈ (handleScanSuccess env st isbn).2 := by
  unfold handleScanSuccess
  rcases hBD : env.openBD with msg | od
  · simp [hlock, hpol]
  · rcases od with _ | s
    · rcases hG : env.google with msg | items
      · simp [hlock, hpol]
      · rcases items with _ | ⟨v, vs⟩ <;> simp [hlock, hpol]
    · simp [hlock, hpol]

/-- An admitted scan leaves the lock set to the scanned string. -/
lemma admitted_lock (env : Env) (st : ScanState) (isbn : String)
    (hlock : st.lastScannedIsbn ≠ some isbn) (hpol : isbnPolicy isbn = true) :
    (handleScanSuccess env st isbn).1.lastScannedIsbn = some isbn := by
  unfold handleScanSuccess
  rcases hBD : env.openBD with msg | od
  · simp [hlock, hpol]
  · rcases od with _ | s
    · rcases hG : env.google with msg | items
      · simp [hlock, hpol]
      · rcases items with _ | ⟨v, vs⟩
        · simp [hlock, hpol]
        · simp [hlock, hpol, addBookToDB_lock]
    · simp [hlock, hpol, addBookToDB_lock]

/-- Branch equation: duplicate short-circuit. -/
lemma addBookToDB_eq_dup (env : Env) (st : ScanState) (b : BookInput)
    (h1 : strTruthy (insertDataOf env.selectedCategory b).isbn = true)
    (h2 : env.storeBooks.any
      (fun r => decide (r.isbn = (insertDataOf env.selectedCategory b).isbn)) = true) :
    addBookToDB env st b =
      ({ st with scanMessage := dupMsg (insertDataOf env.selectedCategory b) },
       [Event.queryDuplicates (jsShow (insertDataOf env.selectedCategory b).isbn),
        Event.setMessage (dupMsg (insertDataOf env.selectedCategory b)),
        Event.beep, Event.armTimer 3000]) := by
  unfold addBookToDB
  simp [h1, h2]

/-- Branch equation: truthy isbn, no duplicate, insert proceeds. -/
lemma addBookToDB_eq_ins (env : Env) (st : ScanState) (b : BookInput)
    (h1 : strTruthy (insertDataOf env.selectedCategory b).isbn = true)
    (h2 : env.storeBooks.any
      (fun r => decide (r.isbn = (insertDataOf env.selectedCategory b).isbn)) = false) :
    addBookToDB env st b =
      (st, Event.queryDuplicates (jsShow (insertDataOf env.selectedCategory b).isbn)
        :: (insertStep env st (insertDataOf env.selectedCategory b)).2) := by
  unfold addBookToDB
  have hfst : (insertStep env st (insertDataOf env.selectedCategory b)).1 = st := by
    unfold insertStep
    cases env.insertError <;> simp
  simp [h1, h2, hfst]

/-- Branch equation: falsy isbn, duplicate check skipped entirely. -/
lemma addBookToDB_eq_nokey (env : Env) (st : ScanState) (b : BookInput)
    (h1 : strTruthy (insertDataOf env.selectedCategory b).isbn = false) :
    addBookToDB env st b = insertStep env st (insertDataOf env.selectedCategory b) := by
  unfold addBookToDB
  simp [h1]

lemma insertStep_arms (env : Env) (st : ScanState) (row : InsertData) :
    timerArms (insertStep env st row).2 = 0 := by
  unfold insertStep
  cases env.insertError <;> simp [timerArms, isArm]

lemma insertStep_insertRow (env : Env) (st : ScanState) (row : InsertData) :
    Event.insertRow row ∈ (insertStep env st row).2 := by
  unfold insertStep
  cases env.insertError <;> simp

lemma timerArms_append (a b : List Event) :
    timerArms (a ++ b) = timerArms a + timerArms b := by
  unfold timerArms
  exact List.countP_append _ _ _

lemma timerArms_cons (e : Event) (l : List Event) :
    timerArms (e :: l) = timerArms l + if isArm e then 1 else 0 := by
  unfold timerArms
  exact List.countP_cons _ _ _

lemma isbnPolicy_ne_empty {s : String} (h : isbnPolicy s = true) : s ≠ "" := by
  intro hs
  subst hs
  exact absurd h (by decide)

lemma replaceFirstAux_self (pat rep r : List Char) (h : pat ≠ []) :
    replaceFirstAux pat rep (pat ++ r) = rep ++ r := by
  cases pat with
  | nil => exact absurd rfl h
  | cons c ps =>
      simp only [List.cons_append, replaceFirstAux]
      rw [if_pos]
      · congr 1
        show List.drop (c :: ps).length ((c :: ps) ++ r) = r
        exact List.drop_left _ _
      · rw [List.isPrefixOf_iff_prefix]
        exact ⟨r, by simp⟩

/-- Timer-count accounting of a provider-hit branch of the pipeline:
the trace is `pre ++ addBookToDB-trace ++ [success message, timer]`,
where `pre` (the gate's beep and the provider fetches) arms no timer
and contains no duplicate query or insert call. -/
lemma hit_branch_arms (env : Env) (stL : ScanState) (d : BookData)
    (pre : List Event) (m : String)
    (hpre0 : timerArms pre = 0)
    (hpreI : ∀ r, Event.insertRow r ∉ pre) :
    1 ≤ timerArms (pre ++ (addBookToDB env stL (.obj d)).2
        ++ [Event.setMessage m, Event.armTimer 3000]) ∧
    timerArms (pre ++ (addBookToDB env stL (.obj d)).2
        ++ [Event.setMessage m, Event.armTimer 3000]) ≤ 2 ∧
    (timerArms (pre ++ (addBookToDB env stL (.obj d)).2
        ++ [Event.setMessage m, Event.armTimer 3000]) = 2 ↔
      ((∃ i, Event.queryDuplicates i ∈ (pre ++ (addBookToDB env stL (.obj d)).2
          ++ [Event.setMessage m, Event.armTimer 3000])) ∧
       ∀ r, Event.insertRow r ∉ (pre ++ (addBookToDB env stL (.obj d)).2
          ++ [Event.setMessage m, Event.armTimer 3000]))) := by
  by_cases h1 : strTruthy (insertDataOf env.selectedCategory (.obj d)).isbn = true
  · by_cases h2 : env.storeBooks.any (fun r => decide (r.isbn =
        (insertDataOf env.selectedCategory (.obj d)).isbn)) = true
    · rw [addBookToDB_eq_dup env stL (.obj d) h1 h2]
      have harms : timerArms (pre ++
          [Event.queryDuplicates (jsShow (insertDataOf env.selectedCategory (.obj d)).isbn),
           Event.setMessage (dupMsg (insertDataOf env.selectedCategory (.obj d))),
           Event.beep, Event.armTimer 3000]
          ++ [Event.setMessage m, Event.armTimer 3000]) = 2 := by
        rw [timerArms_append, timerArms_append, hpre0]
        simp [timerArms, isArm]
      rw [harms]
      refine ⟨by omega, le_refl 2, ?_⟩
      constructor
      · intro _
        refine ⟨⟨jsShow (insertDataOf env.selectedCategory (.obj d)).isbn, by simp⟩, ?_⟩
        intro r
        simp [List.mem_append, hpreI r]
      · intro _
        rfl
    · have h2f : env.storeBooks.any (fun r => decide (r.isbn =
          (insertDataOf env.selectedCategory (.obj d)).isbn)) = false := by
        simpa using h2
      rw [addBookToDB_eq_ins env stL (.obj d) h1 h2f]
      have harms : timerArms (pre ++ (Event.queryDuplicates
          (jsShow (insertDataOf env.selectedCategory (.obj d)).isbn)
            :: (insertStep env stL (insertDataOf env.selectedCategory (.obj d))).2)
          ++ [Event.setMessage m, Event.armTimer 3000]) = 1 := by
        rw [timerArms_append, timerArms_append, hpre0, timerArms_cons,
            insertStep_arms]
        simp [timerArms, isArm]
      rw [harms]
      refine ⟨le_refl 1, by omega, ?_⟩
      constructor
      · intro h
        omega
      · rintro ⟨-, hno⟩
        exfalso
        apply hno (insertDataOf env.selectedCategory (.obj d))
        simp [List.mem_append, insertStep_insertRow env stL _]
  · have h1f : strTruthy (insertDataOf env.selectedCategory (.obj d)).isbn = false := by
      simpa using h1
    rw [addBookToDB_eq_nokey env stL (.obj d) h1f]
    have harms : timerArms (pre ++
        (insertStep env stL (insertDataOf env.selectedCategory (.obj d))).2
        ++ [Event.setMessage m, Event.armTimer 3000]) = 1 := by
      rw [timerArms_append, timerArms_append, hpre0, insertStep_arms]
      simp [timerArms, isArm]
    rw [harms]
    refine ⟨le_refl 1, by omega, ?_⟩
    constructor
    · intro h
      omega
    · rintro ⟨-, hno⟩
      exfalso
      apply hno (insertDataOf env.selectedCategory (.obj d))
      simp [List.mem_append, insertStep_insertRow env stL _]

/-! ### Claim theorems -/

/-- C1 (counterexample): the duplicate short-circuit is bypassed when
the primary provider resolves the scanned ISBN with a summary that
lacks an `isbn` field — the store already holds
`isbn = "9784000000000"`, the same ISBN is scanned again, yet the
insert operation is called and a row is written, contradicting the
claim that re-scanning a stored ISBN never calls insert. -/
theorem c1_dup_bypass_counterexample :
    envC1.storeBooks = [{ isbn := some "9784000000000" }] ∧
    Event.insertRow rowC1 ∈ (handleScanSuccess envC1 st0 "9784000000000").2 ∧
    (∀ i, Event.queryDuplicates i ∉ (handleScanSuccess envC1 st0 "9784000000000").2) := by
  refine ⟨rfl, by decide, ?_⟩
  intro i
  have : (handleScanSuccess envC1 st0 "9784000000000").2 =
      [Event.beep, Event.fetchOpenBD "9784000000000", Event.insertRow rowC1,
       Event.fetchBooksCall, Event.setMessage "✅ 追加: T", Event.armTimer 3000] := by
    decide
  rw [this]
  simp

/-- C1 (amended): re-scanning an ISBN already present in the store does
not call insert, emits the duplicate warning and arms the re-arm timer —
provided the resolved draft carries that ISBN: always in the secondary-
provider path, and in the primary-provider path exactly when the
summary's `isbn` field equals the scanned ISBN (a primary summary
lacking the field bypasses the duplicate filter, see the
counterexample). -/
theorem c1_duplicate_short_circuit_amended (env : Env) (st : ScanState) (isbn : String)
    (hlock : st.lastScannedIsbn ≠ some isbn) (hpol : isbnPolicy isbn = true)
    (hstore : env.storeBooks.any (fun r => decide (r.isbn = some isbn)) = true) :
    (∀ s, env.openBD = .ok (some s) → s.isbn = some isbn →
      (∀ r, Event.insertRow r ∉ (handleScanSuccess env st isbn).2) ∧
      Event.setMessage (dupMsg (insertDataOf env.selectedCategory (.obj s)))
        ∈ (handleScanSuccess env st isbn).2 ∧
      Event.armTimer 3000 ∈ (handleScanSuccess env st isbn).2) ∧
    (∀ v vs, env.openBD = .ok none → env.google = .ok (v :: vs) →
      (∀ r, Event.insertRow r ∉ (handleScanSuccess env st isbn).2) ∧
      Event.setMessage (dupMsg (insertDataOf env.selectedCategory
        (.obj (googleBookData isbn v)))) ∈ (handleScanSuccess env st isbn).2 ∧
      Event.armTimer 3000 ∈ (handleScanSuccess env st isbn).2) := by
  constructor
  · intro s hBD hs
    have h1 : strTruthy (insertDataOf env.selectedCategory (.obj s)).isbn = true := by
      simp [insertDataOf, hs, strTruthy, isbnPolicy_ne_empty hpol]
    have h2 : env.storeBooks.any (fun r => decide (r.isbn =
        (insertDataOf env.selectedCategory (.obj s)).isbn)) = true := by
      simpa [insertDataOf, hs] using hstore
    unfold handleScanSuccess
    rw [hBD]
    simp only [hlock, hpol, if_true, if_false, ite_true, ite_false,
      addBookToDB_eq_dup env _ _ h1 h2]
    simp
  · intro v vs hBD hG
    have hg : (insertDataOf env.selectedCategory (.obj (googleBookData isbn v))).isbn
        = some isbn := by
      simp [insertDataOf, googleBookData]
    have h1 : strTruthy (insertDataOf env.selectedCategory
        (.obj (googleBookData isbn v))).isbn = true := by
      simp [hg, strTruthy, isbnPolicy_ne_empty hpol]
    have h2 : env.storeBooks.any (fun r => decide (r.isbn =
        (insertDataOf env.selectedCategory (.obj (googleBookData isbn v))).isbn)) = true := by
      simpa [hg] using hstore
    unfold handleScanSuccess
    rw [hBD, hG]
    simp only [hlock, hpol, if_true, if_false, ite_true, ite_false,
      addBookToDB_eq_dup env _ _ h1 h2]
    simp

/-- C1 (witness): the amended theorem at the concrete duplicate
environment `envDup` — no insert call, duplicate warning emitted,
timer armed. -/
theorem c1_duplicate_short_circuit_witness :
    Event.insertRow (insertDataOf envDup.selectedCategory
      (.obj (googleBookData "9784000000000" infoT)))
      ∉ (handleScanSuccess envDup st0 "9784000000000").2 ∧
    Event.setMessage (dupMsg (insertDataOf envDup.selectedCategory
      (.obj (googleBookData "9784000000000" infoT))))
      ∈ (handleScanSuccess envDup st0 "9784000000000").2 ∧
    Event.armTimer 3000 ∈ (handleScanSuccess envDup st0 "9784000000000").2 := by
  have h := (c1_duplicate_short_circuit_amended envDup st0 "9784000000000"
    (by decide) (by decide) (by decide)).2 infoT [] rfl rfl
  exact ⟨h.1 _, h.2.1, h.2.2⟩

/-- C2: whenever the primary provider returns a summary, the secondary
provider is never queried, and any insert call carries exactly the
payload mapped from that summary's fields. -/
theorem c2_primary_authoritative (env : Env) (st : ScanState) (isbn : String)
    (s : BookData) (hBD : env.openBD = .ok (some s)) :
    (∀ i, Event.fetchGoogle i ∉ (handleScanSuccess env st isbn).2) ∧
    (∀ row, Event.insertRow row ∈ (handleScanSuccess env st isbn).2 →
       row = insertDataOf env.selectedCategory (.obj s)) := by
  unfold handleScanSuccess
  rw [hBD]
  by_cases hlock : st.lastScannedIsbn = some isbn
  · simp [hlock]
  · by_cases hpol : isbnPolicy isbn = true
    · obtain ⟨hg, ho, hr⟩ := addBookToDB_trace env { st with lastScannedIsbn := some isbn } (.obj s)
      simp only [hlock, hpol, if_true, if_false, ite_true, ite_false]
      constructor
      · intro i
        simp [hg i]
      · intro row hrow
        apply hr
        rcases List.mem_append.mp hrow with h1 | h2
        · rcases List.mem_append.mp h1 with ha | hb
          · simp at ha
          · exact hb
        · simp at h2
    · simp [hlock, hpol]

/-- C2 (witness): at the concrete environment `envDupBD` (primary hit)
the secondary provider is not queried for the scanned ISBN. -/
theorem c2_primary_authoritative_witness :
    Event.fetchGoogle "9784000000000" ∉ (handleScanSuccess envDupBD st0 "9784000000000").2 :=
  (c2_primary_authoritative envDupBD st0 "9784000000000" summaryT rfl).1 "9784000000000"

/-- C3: an admitted scan sets the lock to the scanned string; while the
lock holds, a second scan of the same string is a silent no-op (state
unchanged, so every further repeat is rejected too); after the timer
fires and clears the lock, the same string is admitted again. -/
theorem c3_scan_lock_cycle (env1 env2 env3 : Env) (st : ScanState) (isbn : String)
    (hlock : st.lastScannedIsbn ≠ some isbn) (hpol : isbnPolicy isbn = true) :
    Event.beep ∈ (handleScanSuccess env1 st isbn).2 ∧
    (handleScanSuccess env1 st isbn).1.lastScannedIsbn = some isbn ∧
    handleScanSuccess env2 (handleScanSuccess env1 st isbn).1 isbn
      = ((handleScanSuccess env1 st isbn).1, []) ∧
    Event.beep ∈ (handleScanSuccess env3 (timerFire (handleScanSuccess env1 st isbn).1) isbn).2 := by
  have hl := admitted_lock env1 st isbn hlock hpol
  refine ⟨admitted_beep env1 st isbn hlock hpol, hl, locked_noop env2 _ isbn hl, ?_⟩
  apply admitted_beep
  · simp [timerFire]
  · exact hpol

/-- C3 (witness): the lock cycle at a concrete ISBN and environment. -/
theorem c3_scan_lock_cycle_witness :
    Event.beep ∈ (handleScanSuccess envNF st0 "9784061530194").2 ∧
    (handleScanSuccess envNF st0 "9784061530194").1.lastScannedIsbn = some "9784061530194" ∧
    handleScanSuccess envNF (handleScanSuccess envNF st0 "9784061530194").1 "9784061530194"
      = ((handleScanSuccess envNF st0 "9784061530194").1, []) ∧
    Event.beep ∈ (handleScanSuccess envNF
      (timerFire (handleScanSuccess envNF st0 "9784061530194").1) "9784061530194").2 :=
  c3_scan_lock_cycle envNF envNF envNF st0 "9784061530194" (by decide) (by decide)

/-- C4: every admitted scan's trace arms the 3000 ms re-arm timer, in
every provider/store branch, and the timer's firing resets the lock to
`none` — no code path leaves the scan lock permanently set. -/
theorem c4_every_outcome_rearms (env : Env) (st : ScanState) (isbn : String)
    (hlock : st.lastScannedIsbn ≠ some isbn) (hpol : isbnPolicy isbn = true) :
    Event.armTimer 3000 ∈ (handleScanSuccess env st isbn).2 ∧
    (timerFire (handleScanSuccess env st isbn).1).lastScannedIsbn = none := by
  refine ⟨?_, rfl⟩
  unfold handleScanSuccess
  rcases hBD : env.openBD with msg | od
  · simp [hlock, hpol]
  · rcases od with _ | s
    · rcases hG : env.google with msg | items
      · simp [hlock, hpol]
      · rcases items with _ | ⟨v, vs⟩ <;> simp [hlock, hpol]
    · simp [hlock, hpol]

/-- C4 (witness): the provider-error path at a concrete environment
still arms the timer. -/
theorem c4_every_outcome_rearms_witness :
    Event.armTimer 3000 ∈ (handleScanSuccess envErr st0 "9790000000000").2 ∧
    (timerFire (handleScanSuccess envErr st0 "9790000000000").1).lastScannedIsbn = none :=
  c4_every_outcome_rearms envErr st0 "9790000000000" (by decide) (by decide)

/-- C5 (counterexample): at the spec's own end-to-end input — scan
`"9784061530194"`, primary summary `{title: "T", author: "A"}` — the
earlier revision's pipeline inserts a row whose `isbn` is absent, not
the scanned ISBN: the code copies `bookData.isbn` from the summary and
never injects the scanned ISBN in the primary path. -/
theorem c5_isbn_not_injected_counterexample :
    (handleScanSuccessV1 envC5 st0 "9784061530194").2 =
      [Event.beep, Event.fetchOpenBD "9784061530194", Event.insertRow rowC5,
       Event.fetchBooksCall, Event.setMessage "✅ 追加: T", Event.armTimer 3000] ∧
    rowC5.isbn ≠ some "9784061530194" := by
  decide

/-- C5 (amended): for an admitted scan that the primary provider
resolves, the earlier revision inserts a row with `status = 未読` and
`isbn` equal to the summary's own `isbn` field (the scanned ISBN only
when the provider echoes it), emits the success message with the
resolved title, arms exactly one 3000 ms timer, and that timer's firing
clears the message and the lock. -/
theorem c5_end_to_end_amended (env : Env) (st : ScanState) (isbn : String)
    (s : BookData)
    (hlock : st.lastScannedIsbn ≠ some isbn) (hpol : isbnPolicy isbn = true)
    (hBD : env.openBD = .ok (some s)) (hok : env.insertError = none) :
    Event.insertRow (insertDataOfV1 (.obj s)) ∈ (handleScanSuccessV1 env st isbn).2 ∧
    (insertDataOfV1 (.obj s)).status = "未読" ∧
    (insertDataOfV1 (.obj s)).isbn = s.isbn ∧
    (handleScanSuccessV1 env st isbn).1.scanMessage = successMsg s.title ∧
    timerArms (handleScanSuccessV1 env st isbn).2 = 1 ∧
    timerFire (handleScanSuccessV1 env st isbn).1 = st0 := by
  unfold handleScanSuccessV1 addBookToDBV1 insertStep
  rw [hBD, hok]
  simp only [hlock, hpol, if_true, if_false, ite_true, ite_false]
  refine ⟨by simp, by simp [insertDataOfV1], by simp [insertDataOfV1], by simp, ?_, rfl⟩
  simp [timerArms, isArm]

/-- C5 (witness): the amended end-to-end run at the spec's concrete
input. -/
theorem c5_end_to_end_amended_witness :
    Event.insertRow (insertDataOfV1 (.obj summaryNoIsbn))
      ∈ (handleScanSuccessV1 envC5 st0 "9784061530194").2 ∧
    (insertDataOfV1 (.obj summaryNoIsbn)).status = "未読" ∧
    (insertDataOfV1 (.obj summaryNoIsbn)).isbn = summaryNoIsbn.isbn ∧
    (handleScanSuccessV1 envC5 st0 "9784061530194").1.scanMessage
      = successMsg summaryNoIsbn.title ∧
    timerArms (handleScanSuccessV1 envC5 st0 "9784061530194").2 = 1 ∧
    timerFire (handleScanSuccessV1 envC5 st0 "9784061530194").1 = st0 :=
  c5_end_to_end_amended envC5 st0 "9784061530194" summaryNoIsbn
    (by decide) (by decide) rfl rfl

/-- C6: a secondary-provider volume with no `authors` and no
`imageLinks` normalizes (in both revisions) to the author-unknown
sentinel and an empty cover without failing; absent `title` and
`publisher` likewise yield their sentinels. -/
theorem c6_normalization_defaults (isbn : String) (info : VolumeInfo)
    (hA : info.authors = none) (hI : info.imageLinks = none) :
    (googleBookData isbn info).author = some "著者不明" ∧
    (googleBookData isbn info).cover = some "" ∧
    (googleBookDataV1 isbn info).author = some "著者不明" ∧
    (googleBookDataV1 isbn info).cover = some "" ∧
    (info.title = none → (googleBookData isbn info).title = some "タイトル不明") ∧
    (info.publisher = none → (googleBookData isbn info).publisher = some "出版社不明") := by
  refine ⟨?_, ?_, ?_, ?_, ?_, ?_⟩ <;>
  simp [googleBookData, googleBookDataV1, chainThumb, coverV1, jsOrStr, hA, hI,
        jsReplaceFirst, replaceFirstAux]
  · intro hT
    simp [hT]
  · intro hP
    simp [hP]

/-- C6 (witness): normalization of the fully-empty volume. -/
theorem c6_normalization_defaults_witness :
    (googleBookData "9784061530194" infoEmpty).author = some "著者不明" ∧
    (googleBookData "9784061530194" infoEmpty).cover = some "" ∧
    (googleBookDataV1 "9784061530194" infoEmpty).author = some "著者不明" ∧
    (googleBookDataV1 "9784061530194" infoEmpty).cover = some "" ∧
    (infoEmpty.title = none → (googleBookData "9784061530194" infoEmpty).title
      = some "タイトル不明") ∧
    (infoEmpty.publisher = none → (googleBookData "9784061530194" infoEmpty).publisher
      = some "出版社不明") :=
  c6_normalization_defaults "9784061530194" infoEmpty rfl rfl

/-- C7 (counterexample): `"9781"` is not a 13-digit numeric string, yet
the gate admits it — the lock is set, the beep fires and the primary
provider is queried, because the code's check `/^(978|979)/` only
constrains the prefix. -/
theorem c7_loose_gate_counterexample :
    specValidIsbn13 "9781" = false ∧
    (handleScanSuccess envNF st0 "9781").1.lastScannedIsbn = some "9781" ∧
    Event.beep ∈ (handleScanSuccess envNF st0 "9781").2 ∧
    Event.fetchOpenBD "9781" ∈ (handleScanSuccess envNF st0 "9781").2 := by
  decide

/-- C7 (amended): for every raw string that does not begin with `978`
or `979`, the scan handler is a silent no-op: no candidate, no provider
lookup, no insert, and the scan lock unchanged. -/
theorem c7_gate_rejects_amended (env : Env) (st : ScanState) (s : String)
    (h : isbnPolicy s = false) :
    handleScanSuccess env st s = (st, []) := by
  unfold handleScanSuccess
  by_cases hlock : st.lastScannedIsbn = some s <;> simp [hlock, h]

/-- C7 (witness): a non-ISBN-shaped string is rejected without any
effect. -/
theorem c7_gate_rejects_amended_witness :
    handleScanSuccess envNF st0 "abc" = (st0, []) :=
  c7_gate_rejects_amended envNF st0 "abc" (by decide)

/-- C8 (counterexample): a primary-provider summary with the insecure
cover `http://covers.example/x.jpg` flows into the insert payload
unchanged — the primary path never rewrites the scheme, contradicting
the claim that every draft's cover is upgraded to `https://`. -/
theorem c8_primary_cover_counterexample :
    Event.insertRow rowC8 ∈ (handleScanSuccess envC8 st0 "9784061530194").2 ∧
    rowC8.cover_url = some "http://covers.example/x.jpg" ∧
    strStartsWith "http://covers.example/x.jpg" "https://" = false := by
  decide

/-- C8 (amended): only the secondary-provider path upgrades the cover
scheme — its draft's cover is empty when no thumbnail exists, and a
thumbnail starting with the insecure scheme has that leading occurrence
rewritten to the secure scheme; the primary-provider path passes the
summary's cover through to the insert payload unchanged. -/
theorem c8_cover_scheme_amended :
    (∀ (s : BookData) (cat : String), (insertDataOf cat (.obj s)).cover_url = s.cover) ∧
    (∀ (isbn : String) (info : VolumeInfo), chainThumb info = none →
      (googleBookData isbn info).cover = some "") ∧
    (∀ (isbn : String) (info : VolumeInfo) (r : List Char),
      jsOrStr (chainThumb info) "" = ⟨"http://".data ++ r⟩ →
      (googleBookData isbn info).cover = some ⟨"https://".data ++ r⟩) := by
  refine ⟨?_, ?_, ?_⟩
  · intro s cat
    simp [insertDataOf]
  · intro isbn info h
    simp [googleBookData, h, jsOrStr, jsReplaceFirst, replaceFirstAux]
  · intro isbn info r h
    simp only [googleBookData, h, jsReplaceFirst, Option.some.injEq]
    show (⟨replaceFirstAux "http://".data "https://".data
      (String.mk ("http://".data ++ r)).data⟩ : String) = ⟨"https://".data ++ r⟩
    congr 1
    exact replaceFirstAux_self _ _ _ (by decide)

/-- C8 (witness): the secondary-provider upgrade at the concrete
thumbnail `http://a`. -/
theorem c8_cover_scheme_amended_witness :
    (googleBookData "9781111111111" infoHttp).cover = some "https://a" := by
  have h := c8_cover_scheme_amended.2.2 "9781111111111" infoHttp "a".data (by decide)
  rw [h]
  decide

/-- C9 (counterexample): in the duplicate outcome the pipeline arms two
3000 ms re-arm timers — one from the duplicate filter's own
`resetScanLock`, one from the unconditional success announcement —
refuting the claim that exactly one timer is armed per terminal
outcome. -/
theorem c9_double_timer_counterexample :
    timerArms (handleScanSuccess envDup st0 "9784000000000").2 = 2 ∧
    timerArms (handleScanSuccess envDup st0 "9784000000000").2 ≠ 1 := by
  decide

/-- C9 (amended): every admitted scan arms at least one and at most two
re-arm timers; exactly two are armed precisely when the duplicate
short-circuit fired (a duplicate query happened and no insert call was
made), and exactly one in every other terminal outcome. -/
theorem c9_rearm_timer_count_amended (env : Env) (st : ScanState) (isbn : String)
    (hlock : st.lastScannedIsbn ≠ some isbn) (hpol : isbnPolicy isbn = true) :
    1 ≤ timerArms (handleScanSuccess env st isbn).2 ∧
    timerArms (handleScanSuccess env st isbn).2 ≤ 2 ∧
    (timerArms (handleScanSuccess env st isbn).2 = 2 ↔
      ((∃ i, Event.queryDuplicates i ∈ (handleScanSuccess env st isbn).2) ∧
       ∀ r, Event.insertRow r ∉ (handleScanSuccess env st isbn).2)) := by
  unfold handleScanSuccess
  rcases hBD : env.openBD with msg | od
  · simp [hlock, hpol, timerArms, isArm]
  · rcases od with _ | s
    · rcases hG : env.google with msg | items
      · simp [hlock, hpol, timerArms, isArm]
      · rcases items with _ | ⟨v, vs⟩
        · simp [hlock, hpol, timerArms, isArm]
        · simp only [hlock, hpol, if_true, if_false, ite_true, ite_false]
          exact hit_branch_arms env _ (googleBookData isbn v)
            [Event.beep, Event.fetchOpenBD isbn, Event.fetchGoogle isbn] _
            (by simp [timerArms, isArm]) (by simp)
    · simp only [hlock, hpol, if_true, if_false, ite_true, ite_false]
      exact hit_branch_arms env _ s [Event.beep, Event.fetchOpenBD isbn] _
        (by simp [timerArms, isArm]) (by simp)

/-- C9 (witness): the timer-count bounds at the concrete primary-hit
duplicate environment. -/
theorem c9_rearm_timer_count_amended_witness :
    1 ≤ timerArms (handleScanSuccess envDupBD st0 "9784000000000").2 ∧
    timerArms (handleScanSuccess envDupBD st0 "9784000000000").2 ≤ 2 := by
  have h := c9_rearm_timer_count_amended envDupBD st0 "9784000000000" (by decide) (by decide)
  exact ⟨h.1, h.2.1⟩

/-- C10: whenever a provider returns metadata for an admitted scan, the
final scan message is the success message with the resolved title —
regardless of whether the insert succeeded, failed, or was
short-circuited as a duplicate; in the duplicate case the duplicate
warning is emitted first and then overwritten by the success
message. -/
theorem c10_success_overwrites (env : Env) (st : ScanState) (isbn : String)
    (hlock : st.lastScannedIsbn ≠ some isbn) (hpol : isbnPolicy isbn = true) :
    (∀ s, env.openBD = .ok (some s) →
      (handleScanSuccess env st isbn).1.scanMessage = successMsg s.title ∧
      (duplicateHit env.storeBooks (insertDataOf env.selectedCategory (.obj s)) = true →
        Event.setMessage (dupMsg (insertDataOf env.selectedCategory (.obj s)))
          ∈ (handleScanSuccess env st isbn).2)) ∧
    (∀ v vs, env.openBD = .ok none → env.google = .ok (v :: vs) →
      (handleScanSuccess env st isbn).1.scanMessage
        = successMsg (googleBookData isbn v).title) := by
  constructor
  · intro s hBD
    constructor
    · unfold handleScanSuccess
      rw [hBD]
      simp [hlock, hpol]
    · intro hdup
      have hdup2 : strTruthy (insertDataOf env.selectedCategory (.obj s)).isbn = true ∧
          (env.storeBooks.any fun r => decide (r.isbn =
            (insertDataOf env.selectedCategory (.obj s)).isbn)) = true := by
        simpa [duplicateHit, Bool.and_eq_true] using hdup
      obtain ⟨h1, h2⟩ := hdup2
      unfold handleScanSuccess
      rw [hBD]
      simp only [hlock, hpol, if_true, if_false, ite_true, ite_false,
        addBookToDB_eq_dup env _ _ h1 h2]
      simp
  · intro v vs hBD hG
    unfold handleScanSuccess
    rw [hBD, hG]
    simp [hlock, hpol]

/-- C10 (witness): at the concrete primary-hit duplicate environment,
the duplicate warning is emitted yet the final message is the success
message. -/
theorem c10_success_overwrites_witness :
    (handleScanSuccess envDupBD st0 "9784000000000").1.scanMessage = "✅ 追加: T" ∧
    Event.setMessage "⚠️ 登録済み: T" ∈ (handleScanSuccess envDupBD st0 "9784000000000").2 := by
  have h := (c10_success_overwrites envDupBD st0 "9784000000000"
    (by decide) (by decide)).1 summaryT rfl
  constructor
  · rw [h.1]
    decide
  · have h2 := h.2 (by decide)
    have he : Event.setMessage (dupMsg (insertDataOf envDupBD.selectedCategory
        (.obj summaryT))) = Event.setMessage "⚠️ 登録済み: T" := by decide
    exact he ▸ h2

end BookApp
